import Mathlib

/-!
Verification development for the Clado Deno SDK.

Shallow embedding of the SDK's request engine, error hierarchy, backoff
calculator, parameter normalizer, pagination iterator and deep-research
poller, translated from `src/utils.ts`, `src/errors.ts` and `src/client.ts`
(the three modules concatenated in `src/examples/pagination.ts` of the
packaged sources).

Modelling conventions:
* JavaScript numbers that only ever hold integers are modelled as `Nat`/`Int`;
  `NaN` (which `parseInt` can produce) is modelled as `none : Option Int`.
* `Math.random`-dependent code (`calculateBackoff`) takes the random draw as
  an explicit argument and is modelled over `ℚ`.
* The network is modelled as an explicit trace of exchanges consumed by the
  retry loop; `sleep` calls are recorded as events instead of taking time.
* JSON parsing by the JS runtime is modelled by observable outcome fields on
  the response (`jsonParses`, the extracted `detail`/`error`/`message`
  fields, and the parse-error text).
-/

namespace Clado

/-- JavaScript `a || b` for a possibly-null string `a`: the empty string and
`null`/`undefined` are falsy, so they fall through to `b`. -/
def jsOrStr : Option String → String → String
  | none, b => b
  | some s, b => if s = "" then b else s

/-- Value of the longest leading run of decimal digits, `none` when there is
no leading digit (JS `parseInt` yields `NaN` in that case). -/
def jsDigitsVal (cs : List Char) : Option Nat :=
  let ds := cs.takeWhile Char.isDigit
  if ds.isEmpty then none
  else some (ds.foldl (fun acc c => acc * 10 + (c.toNat - 48)) 0)

/-- JavaScript `parseInt(s, 10)`: skip leading whitespace, optional sign,
then the longest digit run; `none` models `NaN` (no digits found). -/
def jsParseInt (s : String) : Option Int :=
  match s.toList.dropWhile (fun c => c == ' ' || c == '\t' || c == '\n' || c == '\r') with
  | '-' :: rest => (jsDigitsVal rest).map (fun n => -(n : Int))
  | '+' :: rest => (jsDigitsVal rest).map (fun n => (n : Int))
  | cs => (jsDigitsVal cs).map (fun n => (n : Int))

/-- Rendering of a JS number that may be `NaN` into a string. -/
def jsNumStr : Option Int → String
  | none => "NaN"
  | some i => toString i

/-! ## Error hierarchy (`src/errors.ts`)

The JS classes `CladoError`, `CladoRateLimitError`, `CladoAuthError`,
`CladoNotFoundError`, `CladoValidationError` are modelled as one record with
a `name` discriminant; each JS constructor becomes a builder function. -/

/-- A constructed Clado error value: `name` is the JS class name, `status`
the HTTP status stored on the error, `message` the full composed message and
`retryAfter` the rate-limit hint (only meaningful for rate-limit errors;
`none` also models a `NaN` retry-after). -/
structure CladoErr where
  name : String
  status : Nat
  message : String
  retryAfter : Option Int
deriving DecidableEq, Repr

/-- Message composed by the base-class constructor:
`API request failed with status {status}: {message}`. -/
def cladoMessage (status : Nat) (message : String) : String :=
  "API request failed with status " ++ toString status ++ ": " ++ message

/-- `new CladoError(status, message)`. -/
def CladoError (status : Nat) (message : String) : CladoErr :=
  { name := "CladoError", status := status,
    message := cladoMessage status message, retryAfter := none }

/-- `new CladoRateLimitError(retryAfter, message?)`; the default message is
used only when `message` is `undefined` (nullish coalescing). -/
def CladoRateLimitError (retryAfter : Option Int) (message : Option String) : CladoErr :=
  { name := "CladoRateLimitError", status := 429,
    message := cladoMessage 429
      (message.getD ("Rate limit exceeded, retry after " ++ jsNumStr retryAfter ++ "s")),
    retryAfter := retryAfter }

/-- `new CladoAuthError(message?)`. -/
def CladoAuthError (message : Option String) : CladoErr :=
  { name := "CladoAuthError", status := 401,
    message := cladoMessage 401 (message.getD "Invalid or expired API key"),
    retryAfter := none }

/-- `new CladoNotFoundError(message?)`. -/
def CladoNotFoundError (message : Option String) : CladoErr :=
  { name := "CladoNotFoundError", status := 404,
    message := cladoMessage 404 (message.getD "Resource not found"),
    retryAfter := none }

/-- `new CladoValidationError(message)`. -/
def CladoValidationError (message : String) : CladoErr :=
  { name := "CladoValidationError", status := 422,
    message := cladoMessage 422 message, retryAfter := none }

/-! ## Pure utilities (`src/utils.ts`) -/

/-- `DEFAULT_RETRY_CONFIG` from `utils.ts`. -/
structure RetryConfig where
  maxRetries : Nat
  initialDelayMs : Nat
  maxDelayMs : Nat
deriving DecidableEq, Repr

/-- Default retry configuration: 3 retries, 1000ms initial delay, 30000ms cap. -/
def DEFAULT_RETRY_CONFIG : RetryConfig :=
  { maxRetries := 3, initialDelayMs := 1000, maxDelayMs := 30000 }

/-- The static `snakeCaseMap` lookup inside `toSnakeCase`:
`snakeCaseMap[key]` as an optional lookup. -/
def snakeCaseMap (key : String) : Option String :=
  if key = "searchId" then some "search_id"
  else if key = "advancedFiltering" then some "advanced_filtering"
  else if key = "linkedinUrl" then some "linkedin_url"
  else if key = "enrichEmail" then some "enrich_email"
  else if key = "enrichPhone" then some "enrich_phone"
  else if key = "includePosts" then some "include_posts"
  else if key = "includeExperience" then some "include_experience"
  else if key = "includeEducation" then some "include_education"
  else if key = "postUrl" then some "post_url"
  else if key = "reactionType" then some "reaction_type"
  else none

/-- A JavaScript value as it can appear in an options object. `undef` models
a key whose value is `undefined` (still enumerated by `Object.entries`). -/
inductive JsVal
  | undef
  | str (s : String)
  | num (n : Int)
  | boolean (b : Bool)
deriving DecidableEq, Repr

/-- `toSnakeCase(obj)`: walk `Object.entries(obj)` in order and rename each
key through `snakeCaseMap[key] ?? key`, keeping the value untouched. The
object is modelled by its entry list. -/
def toSnakeCase {α : Type} (obj : List (String × α)) : List (String × α) :=
  obj.map (fun kv => ((snakeCaseMap kv.1).getD kv.1, kv.2))

/-! ## Request engine (`request` in `src/utils.ts`) -/

/-- The `detail` / `error` / `message` fields that `parseErrorResponse`
reads from a successfully-JSON-parsed error body. A field that is absent or
not a string is `none`. -/
structure ErrJson where
  detail : Option String
  error : Option String
  message : Option String
deriving DecidableEq, Repr

/-- One HTTP response as observed by the engine. `jsonParses` records
whether `JSON.parse(bodyText)` succeeds in the JS runtime; `errFields` are
the extracted fields of the parsed body (meaningful when `jsonParses`);
`parseErrorMessage` is the `SyntaxError` message when it does not parse;
`retryAfterHeader` is `response.headers.get("Retry-After")`. -/
structure HttpResponse where
  status : Nat
  statusText : String
  bodyText : String
  jsonParses : Bool
  errFields : ErrJson
  parseErrorMessage : String
  retryAfterHeader : Option String
deriving DecidableEq, Repr

/-- `response.ok` of the Fetch API: status in the range 200–299. -/
def respOk (status : Nat) : Prop := 200 ≤ status ∧ status ≤ 299

instance (status : Nat) : Decidable (respOk status) := by
  unfold respOk
  exact inferInstance

/-- `parseErrorResponse(response)`: try to read `detail`, else `error`,
else `message` from the JSON body (JS `||`, so empty strings fall through);
if the body is not JSON, fall back to the raw body text, and if that is
empty, to the status text. (The outer catch for a failed body read is not
modelled: reading the body always succeeds in this model.) -/
def parseErrorResponse (r : HttpResponse) : String :=
  if r.jsonParses then
    jsOrStr r.errFields.detail (jsOrStr r.errFields.error (jsOrStr r.errFields.message r.bodyText))
  else
    jsOrStr (some r.bodyText) r.statusText

/-- The retry-after value computed on a 429:
`parseInt(response.headers.get("Retry-After") || "60", 10)`.
`none` models `NaN` (header present, non-empty, but with no leading digit). -/
def retryAfterOf (r : HttpResponse) : Option Int :=
  jsParseInt (jsOrStr r.retryAfterHeader "60")

/-- One network exchange of a run of the engine: either `fetch` throws
(`netFail`, with the JS error message), or it yields a response. -/
inductive Exchange
  | netFail (msg : String)
  | resp (r : HttpResponse)
deriving DecidableEq, Repr

/-- A sleep performed between attempts: after a 429 the engine sleeps
`retryAfter * 1000` ms (`none` = `NaN`); before a 5xx / network-error retry
it sleeps a `calculateBackoff(attempt, 1000, 30000)` delay, recorded here by
its attempt number since the delay is randomized. -/
inductive SleepEvent
  | rateLimitSleep (ms : Option Int)
  | backoff (attempt : Nat)
deriving DecidableEq, Repr

/-- The value a successful `request` resolves with: `{}` for an empty body,
otherwise the JSON parse of the body text (represented by the text). -/
inductive RequestValue
  | emptyObj
  | parsed (text : String)
deriving DecidableEq, Repr

/-- Outcome of a run of the engine. `raw` is the `throw lastError` after the
loop (a plain JS `Error`, not a `CladoErr`); `stuck` is a model artifact for
a trace that ends while the engine would still fetch. -/
inductive ReqOutcome
  | ok (v : RequestValue)
  | err (e : CladoErr)
  | raw (msg : String)
  | stuck
deriving DecidableEq, Repr

/-- Result of running the engine against a trace: its outcome, the number of
network attempts (`fetch` calls) performed, and the sleeps performed. -/
structure RunResult where
  outcome : ReqOutcome
  fetches : Nat
  sleeps : List SleepEvent
deriving DecidableEq, Repr

/-- Code after the `while` loop:
`throw lastError || new CladoError(0, "Request failed after retries")`. -/
def afterLoop : Option String → RunResult
  | some m => { outcome := .raw m, fetches := 0, sleeps := [] }
  | none => { outcome := .err (CladoError 0 "Request failed after retries"),
              fetches := 0, sleeps := [] }

/-- The headers sent by `request`:
`{ Authorization: Bearer key, Accept: application/json, ...headers }` and
then `Content-Type: application/json` assigned whenever a (truthy) body is
present. Header objects are modelled as partial maps from name to value. -/
def composeHeaders (apiKey : String) (caller : String → Option String)
    (hasBody : Bool) (k : String) : Option String :=
  let spread : Option String :=
    match caller k with
    | some v => some v
    | none =>
        if k = "Authorization" then some ("Bearer " ++ apiKey)
        else if k = "Accept" then some "application/json"
        else none
  if hasBody && k == "Content-Type" then some "application/json" else spread

/-- The `while (attempt <= maxRetries)` retry loop of `request`, consuming
one exchange from the trace per iteration. A thrown `CladoErr` is modelled
directly as `.err` (the `catch` re-throws `CladoError` instances unchanged);
a `JSON.parse` failure on a successful response throws a `SyntaxError`,
which the `catch` treats like a network error. -/
def requestLoop (retry : Bool) (maxRetries : Nat) (attempt : Nat)
    (lastError : Option String) (trace : List Exchange) : RunResult :=
  if attempt ≤ maxRetries then
    match trace with
    | [] => { outcome := .stuck, fetches := 0, sleeps := [] }
    | .netFail msg :: rest =>
        if retry ∧ attempt < maxRetries then
          let r := requestLoop retry maxRetries (attempt + 1) (some msg) rest
          { r with fetches := r.fetches + 1, sleeps := .backoff attempt :: r.sleeps }
        else
          { outcome := .err (CladoError 0 ("Network error: " ++ msg)),
            fetches := 1, sleeps := [] }
    | .resp resp :: rest =>
        if respOk resp.status then
          if resp.bodyText = "" then
            { outcome := .ok .emptyObj, fetches := 1, sleeps := [] }
          else if resp.jsonParses then
            { outcome := .ok (.parsed resp.bodyText), fetches := 1, sleeps := [] }
          else if retry ∧ attempt < maxRetries then
            let r := requestLoop retry maxRetries (attempt + 1)
              (some resp.parseErrorMessage) rest
            { r with fetches := r.fetches + 1, sleeps := .backoff attempt :: r.sleeps }
          else
            { outcome := .err (CladoError 0 ("Network error: " ++ resp.parseErrorMessage)),
              fetches := 1, sleeps := [] }
        else
          let errorMessage := parseErrorResponse resp
          if resp.status = 401 then
            { outcome := .err (CladoAuthError (some errorMessage)), fetches := 1, sleeps := [] }
          else if resp.status = 404 then
            { outcome := .err (CladoNotFoundError (some errorMessage)), fetches := 1, sleeps := [] }
          else if resp.status = 422 then
            { outcome := .err (CladoValidationError errorMessage), fetches := 1, sleeps := [] }
          else if resp.status = 429 then
            if retry ∧ attempt < maxRetries then
              let r := requestLoop retry maxRetries (attempt + 1) lastError rest
              { r with fetches := r.fetches + 1,
                       sleeps := .rateLimitSleep ((retryAfterOf resp).map (fun x => x * 1000)) :: r.sleeps }
            else
              { outcome := .err (CladoRateLimitError (retryAfterOf resp) (some errorMessage)),
                fetches := 1, sleeps := [] }
          else if 500 ≤ resp.status ∧ retry ∧ attempt < maxRetries then
            let r := requestLoop retry maxRetries (attempt + 1) lastError rest
            { r with fetches := r.fetches + 1, sleeps := .backoff attempt :: r.sleeps }
          else
            { outcome := .err (CladoError resp.status errorMessage), fetches := 1, sleeps := [] }
  else afterLoop lastError

/-- `request(url, apiKey, { retry, maxRetries })` run against a trace of
exchanges: the loop starts at attempt 0 with no recorded error. -/
def request (retry : Bool) (maxRetries : Nat) (trace : List Exchange) : RunResult :=
  requestLoop retry maxRetries 0 none trace

/-- `calculateBackoff(attempt, initialDelayMs, maxDelayMs)`, with the
`Math.random()` draw (a number in `[0,1)`) passed explicitly and arithmetic
over `ℚ`:
`delay = initialDelayMs * 2^attempt`,
`jitter = delay * 0.1 * (random * 2 - 1)`,
result `= min (delay + jitter) maxDelayMs`. -/
def calculateBackoff (attempt : Nat) (initialDelayMs maxDelayMs : ℚ) (random : ℚ) : ℚ :=
  let delay := initialDelayMs * (2 : ℚ) ^ attempt
  let jitter := delay * (1 / 10) * (random * 2 - 1)
  min (delay + jitter) maxDelayMs

/-! ## Pagination iterator (`searchPeopleAll` in `src/client.ts`) -/

/-- The fields of a `SearchPeopleOptions` object that the iterator reads or
overrides. Other caller-supplied fields ride along through the spread
unchanged and are irrelevant to the iterator's control flow, so they are
summarized by `query` here. -/
structure SearchPeopleOptions where
  query : String
  searchId : Option String
  offset : Option Nat
  limit : Option Nat
deriving DecidableEq, Repr

/-- One page of a `SearchPeopleResponse`, with items of type `ι`. -/
structure SearchPage (ι : Type) where
  results : List ι
  total : Nat
  search_id : String
deriving DecidableEq, Repr

/-- The options object built for each page fetch:
`{ ...options, searchId, offset, limit }` — the spread puts the iterator's
own `searchId`, `offset` and `limit` after the caller's fields, so they
always win. -/
def iterCallOptions (options : SearchPeopleOptions) (searchId : Option String)
    (offset limit : Nat) : SearchPeopleOptions :=
  { query := options.query, searchId := searchId,
    offset := some offset, limit := some limit }

/-- The observable behavior of one run of the iterator: the page requests it
issued (in order), the items it yielded (in order), and whether the loop hit
its `break` (as opposed to running out of model fuel). -/
structure IterRun (ι : Type) where
  requests : List SearchPeopleOptions
  yielded : List ι
  finished : Bool
deriving DecidableEq, Repr

/-- The `while (true)` loop body of `searchPeopleAll`: fetch a page with the
current `searchId`/`offset`/`limit`, yield its results, `break` when the
page is short or the total is reached, otherwise adopt the server's
`search_id` and advance `offset` by the number of items yielded. `fuel`
bounds the number of iterations the model unrolls. -/
def searchPeopleAllGo {ι : Type} (server : SearchPeopleOptions → SearchPage ι)
    (options : SearchPeopleOptions) :
    Nat → Option String → Nat → Nat → IterRun ι
  | 0, _, _, _ => { requests := [], yielded := [], finished := false }
  | fuel + 1, searchId, offset, limit =>
    let req := iterCallOptions options searchId offset limit
    let response := server req
    if response.results.length < limit ∨ offset + response.results.length ≥ response.total then
      { requests := [req], yielded := response.results, finished := true }
    else
      let r := searchPeopleAllGo server options fuel
        (some response.search_id) (offset + response.results.length) limit
      { requests := req :: r.requests, yielded := response.results ++ r.yielded,
        finished := r.finished }

/-- `searchPeopleAll(options)`: the generator starts with no search id,
offset 0, and `limit = options.limit ?? 30`. -/
def searchPeopleAll {ι : Type} (server : SearchPeopleOptions → SearchPage ι)
    (options : SearchPeopleOptions) (fuel : Nat) : IterRun ι :=
  searchPeopleAllGo server options fuel none 0 (options.limit.getD 30)

/-! ## Deep research poller (`waitForDeepResearch` in `src/client.ts`) -/

/-- A `DeepResearchStatusResponse` as the poller reads it: the `status`
string and the optional `error` text. The rest of the payload rides along
with the record. -/
structure DeepResearchStatus where
  status : String
  error : Option String
deriving DecidableEq, Repr

/-- Result of a run of the poller: the returned payload, a thrown error, or
`pending` when the modelled trace ends while the loop would keep polling. -/
inductive PollResult
  | ok (s : DeepResearchStatus)
  | err (e : CladoErr)
  | pending
deriving DecidableEq, Repr

/-- The polling loop of `waitForDeepResearch`, run against a trace of
successive status fetches; each entry pairs the fetched status with the
elapsed wall-clock milliseconds `Date.now() - startTime` observed in that
iteration. Completed returns the payload; failed throws a 500 with
`status.error ?? "Deep research job failed"`; otherwise the loop throws a
408 naming the timeout once the elapsed time strictly exceeds it, else
sleeps `pollInterval` (abstracted away) and polls again. -/
def waitForDeepResearch (timeout : Nat) :
    List (DeepResearchStatus × Nat) → PollResult
  | [] => .pending
  | (s, elapsed) :: rest =>
    if s.status = "completed" then .ok s
    else if s.status = "failed" then
      .err (CladoError 500 (s.error.getD "Deep research job failed"))
    else if elapsed > timeout then
      .err (CladoError 408 ("Deep research job timed out after " ++ toString timeout ++ "ms"))
    else waitForDeepResearch timeout rest

/-! ## Concrete fixtures used to instantiate the theorems -/

/-- A plain 500 response (server error with body text `boom`). -/
def serverError500 : HttpResponse :=
  { status := 500, statusText := "Internal Server Error", bodyText := "boom",
    jsonParses := false, errFields := { detail := none, error := none, message := none },
    parseErrorMessage := "Unexpected token b in JSON at position 0",
    retryAfterHeader := none }

/-- A 200 response whose non-empty body is not valid JSON. -/
def badJson200 : HttpResponse :=
  { status := 200, statusText := "OK", bodyText := "not json",
    jsonParses := false, errFields := { detail := none, error := none, message := none },
    parseErrorMessage := "Unexpected token o in JSON at position 1",
    retryAfterHeader := none }

/-- A 429 response whose `Retry-After` header is present and non-empty but
not parseable as an integer. -/
def unparseable429 : HttpResponse :=
  { status := 429, statusText := "Too Many Requests", bodyText := "slow down",
    jsonParses := false, errFields := { detail := none, error := none, message := none },
    parseErrorMessage := "x", retryAfterHeader := some "soon" }

/-- A 429 response with no `Retry-After` header. -/
def plain429 : HttpResponse :=
  { status := 429, statusText := "Too Many Requests", bodyText := "slow down",
    jsonParses := false, errFields := { detail := none, error := none, message := none },
    parseErrorMessage := "x", retryAfterHeader := none }

/-- A 401 response. -/
def auth401 : HttpResponse :=
  { status := 401, statusText := "Unauthorized", bodyText := "bad key",
    jsonParses := false, errFields := { detail := none, error := none, message := none },
    parseErrorMessage := "x", retryAfterHeader := none }

/-- A 404 response. -/
def missing404 : HttpResponse :=
  { status := 404, statusText := "Not Found", bodyText := "no such job",
    jsonParses := false, errFields := { detail := none, error := none, message := none },
    parseErrorMessage := "x", retryAfterHeader := none }

/-- A 422 response. -/
def invalid422 : HttpResponse :=
  { status := 422, statusText := "Unprocessable Entity", bodyText := "bad limit",
    jsonParses := false, errFields := { detail := none, error := none, message := none },
    parseErrorMessage := "x", retryAfterHeader := none }

/-- A server holding 31 items (the naturals 0–30): a page at offset `o` with
page size `l` returns the next `min l (31 - o)` items and reports
`total = 31` and search id `sid`. -/
def server31 (o : SearchPeopleOptions) : SearchPage Nat :=
  { results := (List.range (min (o.limit.getD 30) (31 - o.offset.getD 0))).map
      (fun i => i + o.offset.getD 0),
    total := 31, search_id := "sid" }

/-- Options for the 31-item pagination run: `limit = 30`, no caller cursor. -/
def opts31 : SearchPeopleOptions :=
  { query := "q", searchId := none, offset := none, limit := some 30 }

/-! ## Helper lemmas -/

/-- The retry loop performs at most `maxRetries + 1 - attempt` network
attempts, whatever mix of 429 / 5xx / network failures the trace contains:
every retry path increments the shared attempt counter. -/
theorem requestLoop_fetches_le (retry : Bool) (maxRetries : Nat) :
    ∀ (trace : List Exchange) (attempt : Nat) (lastError : Option String),
      (requestLoop retry maxRetries attempt lastError trace).fetches ≤ maxRetries + 1 - attempt := by
  intro trace
  induction trace with
  | nil =>
      intro attempt lastError
      unfold requestLoop
      split
      · simp
      · cases lastError <;> simp [afterLoop]
  | cons ex rest ih =>
      intro attempt lastError
      unfold requestLoop
      by_cases h : attempt ≤ maxRetries
      · rw [if_pos h]
        cases ex with
        | netFail msg =>
            try dsimp only
            by_cases h2 : retry ∧ attempt < maxRetries
            · rw [if_pos h2]
              have := ih (attempt + 1) (some msg)
              try dsimp only
              omega
            · rw [if_neg h2]
              try dsimp only
              omega
        | resp r =>
            try dsimp only
            by_cases hok : respOk r.status
            · rw [if_pos hok]
              by_cases hb : r.bodyText = ""
              · rw [if_pos hb]
                try dsimp only
                omega
              · rw [if_neg hb]
                by_cases hj : r.jsonParses = true
                · rw [if_pos hj]
                  try dsimp only
                  omega
                · rw [if_neg hj]
                  by_cases h2 : retry ∧ attempt < maxRetries
                  · rw [if_pos h2]
                    have := ih (attempt + 1) (some r.parseErrorMessage)
                    try dsimp only
                    omega
                  · rw [if_neg h2]
                    try dsimp only
                    omega
            · rw [if_neg hok]
              try dsimp only
              by_cases h401 : r.status = 401
              · rw [if_pos h401]
                try dsimp only
                omega
              · rw [if_neg h401]
                by_cases h404 : r.status = 404
                · rw [if_pos h404]
                  try dsimp only
                  omega
                · rw [if_neg h404]
                  by_cases h422 : r.status = 422
                  · rw [if_pos h422]
                    try dsimp only
                    omega
                  · rw [if_neg h422]
                    by_cases h429 : r.status = 429
                    · rw [if_pos h429]
                      by_cases h2 : retry ∧ attempt < maxRetries
                      · rw [if_pos h2]
                        have := ih (attempt + 1) lastError
                        try dsimp only
                        omega
                      · rw [if_neg h2]
                        try dsimp only
                        omega
                    · rw [if_neg h429]
                      by_cases h5 : 500 ≤ r.status ∧ retry ∧ attempt < maxRetries
                      · rw [if_pos h5]
                        have := ih (attempt + 1) lastError
                        try dsimp only
                        omega
                      · rw [if_neg h5]
                        try dsimp only
                        omega
      · rw [if_neg h]
        cases lastError <;> simp [afterLoop]

/-- A 2xx response with a non-empty, non-JSON body is handled by the network
error branch: on a trace of `maxRetries + 1 - attempt` copies of it, the
loop retries until the budget is gone and surfaces a status-0 Generic error
whose message wraps the parse-error text. -/
theorem requestLoop_badJson_exhausts (r : HttpResponse) (hok : respOk r.status)
    (hb : r.bodyText ≠ "") (hj : r.jsonParses = false) (maxRetries : Nat) :
    ∀ (n attempt : Nat) (lastError : Option String), attempt + n = maxRetries →
      (requestLoop true maxRetries attempt lastError
          (List.replicate (n + 1) (.resp r))).outcome =
        .err (CladoError 0 ("Network error: " ++ r.parseErrorMessage)) ∧
      (requestLoop true maxRetries attempt lastError
          (List.replicate (n + 1) (.resp r))).fetches = n + 1 := by
  intro n
  induction n with
  | zero =>
      intro attempt lastError hsum
      unfold requestLoop
      rw [if_pos (by omega : attempt ≤ maxRetries)]
      rw [List.replicate_one]
      try dsimp only
      rw [if_pos hok, if_neg hb, if_neg (by simp [hj])]
      rw [if_neg (fun hc => absurd hc.2 (by omega) : ¬ (true = true ∧ attempt < maxRetries))]
      exact ⟨rfl, rfl⟩
  | succ n ih =>
      intro attempt lastError hsum
      unfold requestLoop
      rw [if_pos (by omega : attempt ≤ maxRetries)]
      rw [List.replicate_succ]
      try dsimp only
      rw [if_pos hok, if_neg hb, if_neg (by simp [hj])]
      rw [if_pos (⟨rfl, by omega⟩ : true = true ∧ attempt < maxRetries)]
      have := ih (attempt + 1) (some r.parseErrorMessage) (by omega)
      try dsimp only
      exact ⟨this.1, by omega⟩

/-- If the trace's statuses are all non-terminal and some poll observes an
elapsed time strictly beyond the timeout, the poller throws the 408 error. -/
theorem waitForDeepResearch_timeout_of_nonterminal (timeout : Nat) :
    ∀ (trace : List (DeepResearchStatus × Nat)),
      (∀ p ∈ trace, p.1.status ≠ "completed" ∧ p.1.status ≠ "failed") →
      (∃ p ∈ trace, timeout < p.2) →
      waitForDeepResearch timeout trace =
        .err (CladoError 408 ("Deep research job timed out after " ++ toString timeout ++ "ms")) := by
  intro trace
  induction trace with
  | nil =>
      rintro - ⟨p, hp, -⟩
      cases hp
  | cons q rest ih =>
      rintro hall ⟨p, hp, hgt⟩
      obtain ⟨s, e⟩ := q
      have hq := hall (s, e) (List.mem_cons_self _ _)
      unfold waitForDeepResearch
      rw [if_neg hq.1, if_neg hq.2]
      by_cases he : e > timeout
      · rw [if_pos he]
      · rw [if_neg he]
        apply ih
        · intro p2 hp2
          exact hall p2 (List.mem_cons_of_mem _ hp2)
        · rcases List.mem_cons.mp hp with h | h
          · exact absurd (by rw [h] at hgt; exact hgt) he
          · exact ⟨p, h, hgt⟩

/-- The iterator's page requests depend on the caller options only through
`query` (and the starting limit): two option records with the same `query`
drive identical runs of the loop body. -/
theorem searchPeopleAllGo_query_eq {ι : Type} (server : SearchPeopleOptions → SearchPage ι)
    (oA oB : SearchPeopleOptions) (hq : oA.query = oB.query) :
    ∀ (fuel : Nat) (sid : Option String) (off lim : Nat),
      searchPeopleAllGo server oA fuel sid off lim =
        searchPeopleAllGo server oB fuel sid off lim := by
  intro fuel
  induction fuel with
  | zero =>
      intro sid off lim
      rfl
  | succ n ih =>
      intro sid off lim
      have hreq : iterCallOptions oA sid off lim = iterCallOptions oB sid off lim := by
        simp [iterCallOptions, hq]
      unfold searchPeopleAllGo
      rw [hreq]
      simp only [ih]

/-! ## Claim theorems -/

/-- Claim C1: with retrying enabled and the default budget (3 retries), a
call whose every network exchange returns HTTP 500 performs exactly 4 total
network attempts (1 initial + 3 backoff retries) and then raises a Generic
`CladoError` with status 500; and for every retry flag, budget and trace
(any mix of 429, 5xx and network failures), the engine performs at most
`maxRetries + 1` attempts — 429 and 5xx retries share the one attempt
counter, so it never retries more than `maxRetries` times per call. -/
theorem request_retry_budget_spec :
    (∀ (r1 r2 r3 r4 : HttpResponse) (rest : List Exchange),
        r1.status = 500 → r2.status = 500 → r3.status = 500 → r4.status = 500 →
        request true DEFAULT_RETRY_CONFIG.maxRetries
            (.resp r1 :: .resp r2 :: .resp r3 :: .resp r4 :: rest) =
          { outcome := .err (CladoError 500 (parseErrorResponse r4)), fetches := 4,
            sleeps := [.backoff 0, .backoff 1, .backoff 2] }) ∧
    (∀ (retry : Bool) (maxRetries : Nat) (trace : List Exchange),
        (request retry maxRetries trace).fetches ≤ maxRetries + 1) := by
  constructor
  · intro r1 r2 r3 r4 rest h1 h2 h3 h4
    simp [request, DEFAULT_RETRY_CONFIG, requestLoop, h1, h2, h3, h4, respOk]
  · intro retry maxRetries trace
    have := requestLoop_fetches_le retry maxRetries trace 0 none
    simpa [request] using this.trans (by omega)

/-- Claim C1 witness: four consecutive 500 responses give exactly 4 fetches
and a status-500 Generic error. -/
theorem request_retry_budget_witness :
    request true DEFAULT_RETRY_CONFIG.maxRetries
        [.resp serverError500, .resp serverError500, .resp serverError500, .resp serverError500] =
      { outcome := .err (CladoError 500 (parseErrorResponse serverError500)), fetches := 4,
        sleeps := [.backoff 0, .backoff 1, .backoff 2] } :=
  request_retry_budget_spec.1 serverError500 serverError500 serverError500 serverError500 []
    rfl rfl rfl rfl

/-- Claim C7: a 401, 404 or 422 response raises the matching typed error
(`CladoAuthError`, `CladoNotFoundError`, `CladoValidationError`) after
exactly one network attempt, with no retry and no sleep, for every retry
flag and budget. -/
theorem request_nonretryable_spec :
    ∀ (retry : Bool) (maxRetries : Nat) (r : HttpResponse) (rest : List Exchange),
      (r.status = 401 → request retry maxRetries (.resp r :: rest) =
        { outcome := .err (CladoAuthError (some (parseErrorResponse r))),
          fetches := 1, sleeps := [] }) ∧
      (r.status = 404 → request retry maxRetries (.resp r :: rest) =
        { outcome := .err (CladoNotFoundError (some (parseErrorResponse r))),
          fetches := 1, sleeps := [] }) ∧
      (r.status = 422 → request retry maxRetries (.resp r :: rest) =
        { outcome := .err (CladoValidationError (parseErrorResponse r)),
          fetches := 1, sleeps := [] }) := by
  intro retry maxRetries r rest
  refine ⟨?_, ?_, ?_⟩ <;> intro h <;>
    simp [request, requestLoop, h, respOk]

/-- Claim C7 witness: concrete 401, 404 and 422 responses each produce their
typed error after a single attempt even with retrying enabled and budget
remaining. -/
theorem request_nonretryable_witness :
    request true 3 [.resp auth401] =
      { outcome := .err (CladoAuthError (some (parseErrorResponse auth401))),
        fetches := 1, sleeps := [] } ∧
    request true 3 [.resp missing404] =
      { outcome := .err (CladoNotFoundError (some (parseErrorResponse missing404))),
        fetches := 1, sleeps := [] } ∧
    request true 3 [.resp invalid422] =
      { outcome := .err (CladoValidationError (parseErrorResponse invalid422)),
        fetches := 1, sleeps := [] } :=
  ⟨(request_nonretryable_spec true 3 auth401 []).1 rfl,
   (request_nonretryable_spec true 3 missing404 []).2.1 rfl,
   (request_nonretryable_spec true 3 invalid422 []).2.2 rfl⟩

/-- Claim C2 counterexample: a 2xx response with a non-empty body that is
not valid JSON is retried (4 fetches, not 1) and surfaced as a status-0
network error, not as a Generic error carrying the real status 200. -/
theorem claim2_parse_failure_counterexample :
    (request true DEFAULT_RETRY_CONFIG.maxRetries
        (List.replicate 4 (.resp badJson200))).fetches = 4 ∧
    (request true DEFAULT_RETRY_CONFIG.maxRetries
        (List.replicate 4 (.resp badJson200))).outcome =
      .err (CladoError 0 ("Network error: " ++ badJson200.parseErrorMessage)) ∧
    (CladoError 0 ("Network error: " ++ badJson200.parseErrorMessage)).status = 0 ∧
    ¬ (request true DEFAULT_RETRY_CONFIG.maxRetries
        (List.replicate 4 (.resp badJson200))).fetches = 1 := by
  refine ⟨rfl, rfl, rfl, by decide⟩

/-- Claim C2 (amended): a JSON parse failure on a successful (2xx) response
with a non-empty body is handled by the network-error branch of the retry
loop: with no retry available it is raised at once — and after the budget is
exhausted it is raised — as a Generic `CladoError` with status 0 (not the
real HTTP status) whose message wraps the parse-error text, after retrying
while budget remained. -/
theorem request_badJson_networkError_spec :
    (∀ (retry : Bool) (maxRetries : Nat) (r : HttpResponse) (rest : List Exchange),
        respOk r.status → r.bodyText ≠ "" → r.jsonParses = false →
        ¬ (retry = true ∧ 0 < maxRetries) →
        request retry maxRetries (.resp r :: rest) =
          { outcome := .err (CladoError 0 ("Network error: " ++ r.parseErrorMessage)),
            fetches := 1, sleeps := [] }) ∧
    (∀ (maxRetries : Nat) (r : HttpResponse),
        respOk r.status → r.bodyText ≠ "" → r.jsonParses = false →
        (request true maxRetries (List.replicate (maxRetries + 1) (.resp r))).outcome =
          .err (CladoError 0 ("Network error: " ++ r.parseErrorMessage)) ∧
        (request true maxRetries (List.replicate (maxRetries + 1) (.resp r))).fetches =
          maxRetries + 1) := by
  constructor
  · intro retry maxRetries r rest hok hb hj hnr
    unfold request requestLoop
    rw [if_pos (Nat.zero_le _)]
    try dsimp only
    rw [if_pos hok, if_neg hb, if_neg (by simp [hj]), if_neg hnr]
  · intro maxRetries r hok hb hj
    exact requestLoop_badJson_exhausts r hok hb hj maxRetries maxRetries 0 none (by omega)

/-- Claim C2 (amended) witness: the concrete bad-JSON 200 response is raised
immediately with status 0 when retrying is disabled, and after 4 fetches
with the default budget. -/
theorem request_badJson_networkError_witness :
    request false 3 [.resp badJson200] =
      { outcome := .err (CladoError 0 ("Network error: " ++ badJson200.parseErrorMessage)),
        fetches := 1, sleeps := [] } ∧
    (request true 3 (List.replicate 4 (.resp badJson200))).outcome =
      .err (CladoError 0 ("Network error: " ++ badJson200.parseErrorMessage)) ∧
    (request true 3 (List.replicate 4 (.resp badJson200))).fetches = 4 :=
  ⟨request_badJson_networkError_spec.1 false 3 badJson200 []
      (by decide) (by decide) rfl (by simp),
   request_badJson_networkError_spec.2 3 badJson200 (by decide) (by decide) rfl⟩

/-- Claim C3: the poller returns the status payload as soon as a fetched
status is `completed`; a `failed` status raises a Generic error with status
500 carrying the server-reported error text (or the default
`Deep research job failed`); and a run whose statuses never reach a
terminal state before the observed elapsed time exceeds the timeout raises a
Generic error with status 408 whose message names the timeout duration. -/
theorem waitForDeepResearch_spec :
    (∀ (timeout : Nat) (s : DeepResearchStatus) (elapsed : Nat)
        (rest : List (DeepResearchStatus × Nat)),
        s.status = "completed" →
        waitForDeepResearch timeout ((s, elapsed) :: rest) = .ok s) ∧
    (∀ (timeout : Nat) (s : DeepResearchStatus) (elapsed : Nat)
        (rest : List (DeepResearchStatus × Nat)),
        s.status = "failed" →
        waitForDeepResearch timeout ((s, elapsed) :: rest) =
          .err (CladoError 500 (s.error.getD "Deep research job failed"))) ∧
    (∀ (timeout : Nat) (trace : List (DeepResearchStatus × Nat)),
        (∀ p ∈ trace, p.1.status ≠ "completed" ∧ p.1.status ≠ "failed") →
        (∃ p ∈ trace, timeout < p.2) →
        waitForDeepResearch timeout trace =
          .err (CladoError 408
            ("Deep research job timed out after " ++ toString timeout ++ "ms"))) := by
  refine ⟨?_, ?_, ?_⟩
  · intro timeout s elapsed rest h
    unfold waitForDeepResearch
    rw [if_pos h]
  · intro timeout s elapsed rest h
    unfold waitForDeepResearch
    rw [if_neg (by rw [h]; decide), if_pos h]
  · exact waitForDeepResearch_timeout_of_nonterminal

/-- Claim C3 witness: a completed status is returned, a failed status with
error text `x` raises the 500 error, and a never-terminal run whose elapsed
time exceeds a 1000ms timeout raises the 408 error naming the timeout. -/
theorem waitForDeepResearch_witness :
    waitForDeepResearch 1000 [({ status := "completed", error := none }, 5)] =
      .ok { status := "completed", error := none } ∧
    waitForDeepResearch 1000 [({ status := "failed", error := some "x" }, 5)] =
      .err (CladoError 500 "x") ∧
    waitForDeepResearch 1000
        [({ status := "pending", error := none }, 400),
         ({ status := "in_progress", error := none }, 1500)] =
      .err (CladoError 408 ("Deep research job timed out after " ++ toString 1000 ++ "ms")) :=
  ⟨waitForDeepResearch_spec.1 1000 { status := "completed", error := none } 5 [] rfl,
   waitForDeepResearch_spec.2.1 1000 { status := "failed", error := some "x" } 5 [] rfl,
   waitForDeepResearch_spec.2.2 1000 _ (by decide) (by decide)⟩

/-- Claim C4: against a server reporting `total = 31` that returns pages of
up to `limit` items, iterating with `limit = 30` yields all 31 items in
server order across exactly 2 page fetches (for any remaining fuel, so no
third fetch is ever issued); and in general the loop ends exactly when a
page is shorter than the requested limit or the offset plus the items
returned reaches the reported total, and otherwise continues with the
server-returned search id and the offset advanced by the items yielded. -/
theorem searchPeopleAll_pagination_spec :
    (∀ (fuel : Nat),
        searchPeopleAll server31 opts31 (fuel + 2) =
          { requests :=
              [{ query := "q", searchId := none, offset := some 0, limit := some 30 },
               { query := "q", searchId := some "sid", offset := some 30, limit := some 30 }],
            yielded := List.range 31, finished := true }) ∧
    (∀ (ι : Type) (server : SearchPeopleOptions → SearchPage ι)
        (options : SearchPeopleOptions) (fuel : Nat) (sid : Option String)
        (off lim : Nat) (resp : SearchPage ι),
        server (iterCallOptions options sid off lim) = resp →
        (resp.results.length < lim ∨ off + resp.results.length ≥ resp.total →
          searchPeopleAllGo server options (fuel + 1) sid off lim =
            { requests := [iterCallOptions options sid off lim],
              yielded := resp.results, finished := true }) ∧
        (¬ (resp.results.length < lim ∨ off + resp.results.length ≥ resp.total) →
          searchPeopleAllGo server options (fuel + 1) sid off lim =
            { requests := iterCallOptions options sid off lim ::
                (searchPeopleAllGo server options fuel (some resp.search_id)
                  (off + resp.results.length) lim).requests,
              yielded := resp.results ++
                (searchPeopleAllGo server options fuel (some resp.search_id)
                  (off + resp.results.length) lim).yielded,
              finished := (searchPeopleAllGo server options fuel (some resp.search_id)
                  (off + resp.results.length) lim).finished })) := by
  constructor
  · intro fuel
    rfl
  · intro ι server options fuel sid off lim resp hresp
    subst hresp
    constructor
    · intro hstop
      simp only [searchPeopleAllGo]
      rw [if_pos hstop]
    · intro hmore
      simp only [searchPeopleAllGo]
      rw [if_neg hmore]

/-- Claim C4 witness: the 31-item run with fuel 2 issues exactly the two
page requests and yields 0..30; and the first loop step of that run takes
the continue branch, adopting search id `sid` and offset 30. -/
theorem searchPeopleAll_pagination_witness :
    searchPeopleAll server31 opts31 2 =
      { requests :=
          [{ query := "q", searchId := none, offset := some 0, limit := some 30 },
           { query := "q", searchId := some "sid", offset := some 30, limit := some 30 }],
        yielded := List.range 31, finished := true } ∧
    searchPeopleAllGo server31 opts31 1 none 0 30 =
      { requests := iterCallOptions opts31 none 0 30 ::
          (searchPeopleAllGo server31 opts31 0 (some "sid") 30 30).requests,
        yielded := (server31 (iterCallOptions opts31 none 0 30)).results ++
          (searchPeopleAllGo server31 opts31 0 (some "sid") 30 30).yielded,
        finished := (searchPeopleAllGo server31 opts31 0 (some "sid") 30 30).finished } :=
  ⟨searchPeopleAll_pagination_spec.1 0,
   (searchPeopleAll_pagination_spec.2 Nat server31 opts31 0 none 0 30
      (server31 (iterCallOptions opts31 none 0 30)) rfl).2 (by decide)⟩

/-- Claim C10: a caller-supplied `offset` or `searchId` in the options is
ignored by the iterator: the first page request always carries
`searchId = none` and `offset = 0` (the iterator's own variables overwrite
the spread-in caller fields), and an entire run is unchanged under any
caller-supplied `searchId`/`offset`. -/
theorem searchPeopleAll_cursor_override_spec :
    (∀ (ι : Type) (server : SearchPeopleOptions → SearchPage ι)
        (options : SearchPeopleOptions) (fuel : Nat), 0 < fuel →
        (searchPeopleAll server options fuel).requests.head? =
          some (iterCallOptions options none 0 (options.limit.getD 30))) ∧
    (∀ (options : SearchPeopleOptions),
        (iterCallOptions options none 0 (options.limit.getD 30)).searchId = none ∧
        (iterCallOptions options none 0 (options.limit.getD 30)).offset = some 0) ∧
    (∀ (ι : Type) (server : SearchPeopleOptions → SearchPage ι)
        (options : SearchPeopleOptions) (sid : Option String) (off : Option Nat)
        (fuel : Nat),
        searchPeopleAll server
            { query := options.query, searchId := sid, offset := off,
              limit := options.limit } fuel =
          searchPeopleAll server options fuel) := by
  refine ⟨?_, ?_, ?_⟩
  · intro ι server options fuel hfuel
    obtain ⟨n, rfl⟩ : ∃ n, fuel = n + 1 := ⟨fuel - 1, by omega⟩
    unfold searchPeopleAll searchPeopleAllGo
    try dsimp only
    split <;> rfl
  · intro options
    exact ⟨rfl, rfl⟩
  · intro ι server options sid off fuel
    unfold searchPeopleAll
    exact searchPeopleAllGo_query_eq server
      { query := options.query, searchId := sid, offset := off, limit := options.limit }
      options rfl fuel none 0 (options.limit.getD 30)

/-- Claim C10 witness: with caller options carrying `searchId` and `offset`,
the first request still has no search token and offset 0, and the whole run
equals the run without the caller cursor. -/
theorem searchPeopleAll_cursor_override_witness :
    (searchPeopleAll server31
        { query := "q", searchId := some "caller", offset := some 7, limit := some 30 }
        1).requests.head? =
      some (iterCallOptions
        { query := "q", searchId := some "caller", offset := some 7, limit := some 30 }
        none 0 30) ∧
    searchPeopleAll server31
        { query := "q", searchId := some "caller", offset := some 7, limit := some 30 } 2 =
      searchPeopleAll server31 opts31 2 :=
  ⟨searchPeopleAll_cursor_override_spec.1 Nat server31
      { query := "q", searchId := some "caller", offset := some 7, limit := some 30 }
      1 (by decide),
   searchPeopleAll_cursor_override_spec.2.2 Nat server31 opts31 (some "caller") (some 7) 2⟩

/-- Claim C5 counterexample: there is no input at all — in particular none
whose un-jittered exponential exceeds the ceiling — for which
`calculateBackoff` returns a value strictly greater than the ceiling: the
source clamps the jittered value (`Math.min(delay + jitter, maxDelayMs)`),
not the pre-jitter value. -/
theorem claim5_ceiling_counterexample :
    ¬ ∃ (attempt : Nat) (base ceiling rand : ℚ),
        ceiling < base * (2 : ℚ) ^ attempt ∧ 0 ≤ rand ∧ rand < 1 ∧
        ceiling < calculateBackoff attempt base ceiling rand := by
  rintro ⟨a, b, c, r, -, -, -, hgt⟩
  exact absurd hgt (not_lt.mpr (min_le_right _ _))

/-- Claim C5 (amended): `calculateBackoff` clamps after adding jitter, so
for every attempt, base delay, ceiling and jitter draw the returned delay is
at most the ceiling — it never exceeds it, by any fraction. -/
theorem calculateBackoff_le_ceiling (attempt : Nat) (base ceiling rand : ℚ) :
    calculateBackoff attempt base ceiling rand ≤ ceiling :=
  min_le_right _ _

/-- Claim C6 counterexample: a present but non-integer `Retry-After` header
(`soon`) yields `NaN` (modelled `none`), not 60, both as the computed
retry-after value and as the structured `retryAfter` on the raised
rate-limit error. -/
theorem claim6_retryAfter_counterexample :
    retryAfterOf unparseable429 = none ∧
    ¬ retryAfterOf unparseable429 = some 60 ∧
    (request false DEFAULT_RETRY_CONFIG.maxRetries [.resp unparseable429]).outcome =
      .err (CladoRateLimitError none (some (parseErrorResponse unparseable429))) :=
  ⟨rfl, by decide, rfl⟩

/-- Claim C6 (amended): on a 429 the engine computes one retry-after value,
`parseInt(headers.get("Retry-After") || "60", 10)`: 60 whenever the header
is absent or empty (but `NaN` when it is present, non-empty and has no
leading digit); that one value is carried as the structured `retryAfter` of
the rate-limit error raised on budget exhaustion, and `value * 1000` ms is
the sleep performed before a 429 retry. -/
theorem request_retryAfter_spec :
    (∀ (r : HttpResponse),
        r.retryAfterHeader = none ∨ r.retryAfterHeader = some "" →
        retryAfterOf r = some 60) ∧
    (∀ (retry : Bool) (maxRetries : Nat) (r : HttpResponse) (rest : List Exchange),
        r.status = 429 → ¬ (retry = true ∧ 0 < maxRetries) →
        request retry maxRetries (.resp r :: rest) =
          { outcome := .err (CladoRateLimitError (retryAfterOf r)
              (some (parseErrorResponse r))),
            fetches := 1, sleeps := [] }) ∧
    (∀ (maxRetries : Nat) (r : HttpResponse) (rest : List Exchange),
        r.status = 429 → 0 < maxRetries →
        (request true maxRetries (.resp r :: rest)).sleeps.head? =
          some (.rateLimitSleep ((retryAfterOf r).map (fun x => x * 1000)))) := by
  refine ⟨?_, ?_, ?_⟩
  · intro r h
    rcases h with h | h <;> rw [retryAfterOf, h] <;> rfl
  · intro retry maxRetries r rest h hnr
    unfold request requestLoop
    rw [if_pos (Nat.zero_le maxRetries)]
    try dsimp only
    rw [h]
    rw [if_neg (by decide : ¬ respOk 429)]
    try dsimp only
    rw [if_neg (by decide : ¬ ((429 : Nat) = 401)),
      if_neg (by decide : ¬ ((429 : Nat) = 404)),
      if_neg (by decide : ¬ ((429 : Nat) = 422)),
      if_pos (rfl : (429 : Nat) = 429), if_neg hnr]
  · intro maxRetries r rest h hmr
    unfold request requestLoop
    rw [if_pos (Nat.zero_le maxRetries)]
    try dsimp only
    rw [h]
    rw [if_neg (by decide : ¬ respOk 429)]
    try dsimp only
    rw [if_neg (by decide : ¬ ((429 : Nat) = 401)),
      if_neg (by decide : ¬ ((429 : Nat) = 404)),
      if_neg (by decide : ¬ ((429 : Nat) = 422)),
      if_pos (rfl : (429 : Nat) = 429),
      if_pos (⟨rfl, hmr⟩ : true = true ∧ 0 < maxRetries)]
    rfl

/-- Claim C6 (amended) witness: for a 429 with no header, the retry-after is
60, the error raised without budget carries 60, and the sleep before a retry
is 60000 ms. -/
theorem request_retryAfter_witness :
    retryAfterOf plain429 = some 60 ∧
    request false 3 [.resp plain429] =
      { outcome := .err (CladoRateLimitError (retryAfterOf plain429)
          (some (parseErrorResponse plain429))),
        fetches := 1, sleeps := [] } ∧
    (request true 3 [.resp plain429]).sleeps.head? =
      some (.rateLimitSleep (some 60000)) :=
  ⟨request_retryAfter_spec.1 plain429 (Or.inl rfl),
   request_retryAfter_spec.2.1 false 3 plain429 [] rfl (by simp),
   request_retryAfter_spec.2.2 3 plain429 [] rfl (by decide)⟩

/-- Claim C8 counterexample: with a body present, a caller-supplied
`Content-Type` does not take precedence — the engine overwrites it with
`application/json` after layering the caller headers. -/
theorem claim8_contentType_counterexample :
    composeHeaders "key"
        (fun k => if k = "Content-Type" then some "text/plain" else none)
        true "Content-Type" = some "application/json" ∧
    ¬ composeHeaders "key"
        (fun k => if k = "Content-Type" then some "text/plain" else none)
        true "Content-Type" = some "text/plain" :=
  ⟨rfl, by decide⟩

/-- Claim C8 (amended): the sent headers are the bearer `Authorization` and
accept-JSON defaults with caller entries layered on top — the caller's value
wins for `Authorization`, `Accept` and any other name — except that
`Content-Type` is forced to `application/json` whenever a body is present,
overriding any caller-supplied value; with no body, `Content-Type` is
exactly the caller's entry (if any). -/
theorem composeHeaders_spec :
    ∀ (apiKey : String) (caller : String → Option String) (hasBody : Bool),
      (composeHeaders apiKey caller hasBody "Authorization" =
        some ((caller "Authorization").getD ("Bearer " ++ apiKey))) ∧
      (composeHeaders apiKey caller hasBody "Accept" =
        some ((caller "Accept").getD "application/json")) ∧
      (composeHeaders apiKey caller hasBody "Content-Type" =
        if hasBody then some "application/json" else caller "Content-Type") ∧
      (∀ (k : String), k ≠ "Authorization" → k ≠ "Accept" → k ≠ "Content-Type" →
        composeHeaders apiKey caller hasBody k = caller k) := by
  intro apiKey caller hasBody
  refine ⟨?_, ?_, ?_, ?_⟩
  · cases hcall : caller "Authorization" <;>
      simp [composeHeaders, hcall]
  · cases hcall : caller "Accept" <;>
      simp [composeHeaders, hcall]
  · cases hasBody <;> cases hcall : caller "Content-Type" <;>
      simp [composeHeaders, hcall]
  · intro k h1 h2 h3
    cases hcall : caller k <;>
      simp [composeHeaders, hcall, h1, h2, h3]

/-- Claim C8 (amended) witness: concrete header composition — caller
`Authorization` wins, defaults apply when missing, `Content-Type` is forced
with a body present, and a custom caller header passes through. -/
theorem composeHeaders_witness :
    composeHeaders "k"
        (fun k => if k = "Authorization" then some "custom-auth"
          else if k = "X-Custom" then some "1" else none) true "Authorization" =
      some "custom-auth" ∧
    composeHeaders "k"
        (fun k => if k = "Authorization" then some "custom-auth"
          else if k = "X-Custom" then some "1" else none) true "Accept" =
      some "application/json" ∧
    composeHeaders "k"
        (fun k => if k = "Authorization" then some "custom-auth"
          else if k = "X-Custom" then some "1" else none) true "Content-Type" =
      some "application/json" ∧
    composeHeaders "k"
        (fun k => if k = "Authorization" then some "custom-auth"
          else if k = "X-Custom" then some "1" else none) true "X-Custom" =
      some "1" :=
  ⟨(composeHeaders_spec "k" _ true).1,
   (composeHeaders_spec "k" _ true).2.1,
   (composeHeaders_spec "k" _ true).2.2.1,
   (composeHeaders_spec "k" _ true).2.2.2 "X-Custom" (by decide) (by decide) (by decide)⟩

/-- Claim C9: `toSnakeCase` renames exactly the ten keys of the static
translation table to their snake_case wire form and passes every other
entry through with its key and value unchanged — including entries whose
value is `undefined` — producing a new entry list of the same length
(the input is a pure value here, so it is never mutated). -/
theorem toSnakeCase_spec :
    (snakeCaseMap "searchId" = some "search_id" ∧
     snakeCaseMap "advancedFiltering" = some "advanced_filtering" ∧
     snakeCaseMap "linkedinUrl" = some "linkedin_url" ∧
     snakeCaseMap "enrichEmail" = some "enrich_email" ∧
     snakeCaseMap "enrichPhone" = some "enrich_phone" ∧
     snakeCaseMap "includePosts" = some "include_posts" ∧
     snakeCaseMap "includeExperience" = some "include_experience" ∧
     snakeCaseMap "includeEducation" = some "include_education" ∧
     snakeCaseMap "postUrl" = some "post_url" ∧
     snakeCaseMap "reactionType" = some "reaction_type") ∧
    (∀ (obj : List (String × JsVal)), (toSnakeCase obj).length = obj.length) ∧
    (∀ (obj : List (String × JsVal)) (k : String) (v : JsVal),
        (k, v) ∈ obj → ((snakeCaseMap k).getD k, v) ∈ toSnakeCase obj) ∧
    (∀ (obj : List (String × JsVal)) (k : String) (v : JsVal),
        (k, v) ∈ obj → snakeCaseMap k = none → (k, v) ∈ toSnakeCase obj) := by
  refine ⟨⟨rfl, rfl, rfl, rfl, rfl, rfl, rfl, rfl, rfl, rfl⟩, ?_, ?_, ?_⟩
  · intro obj
    simp [toSnakeCase]
  · intro obj k v h
    exact List.mem_map_of_mem _ h
  · intro obj k v h hnone
    have hmem : ((snakeCaseMap k).getD k, v) ∈ toSnakeCase obj :=
      List.mem_map_of_mem _ h
    rw [hnone] at hmem
    exact hmem

/-- Claim C9 witness: a table key (`searchId`) is renamed and an unknown key
with an `undefined` value passes through unchanged, on a concrete object. -/
theorem toSnakeCase_witness :
    ("search_id", JsVal.str "abc") ∈
      toSnakeCase [("searchId", JsVal.str "abc"), ("custom", JsVal.undef)] ∧
    ("custom", JsVal.undef) ∈
      toSnakeCase [("searchId", JsVal.str "abc"), ("custom", JsVal.undef)] ∧
    (toSnakeCase [("searchId", JsVal.str "abc"), ("custom", JsVal.undef)]).length = 2 :=
  ⟨toSnakeCase_spec.2.2.1 [("searchId", JsVal.str "abc"), ("custom", JsVal.undef)]
      "searchId" (JsVal.str "abc") (by decide),
   toSnakeCase_spec.2.2.2 [("searchId", JsVal.str "abc"), ("custom", JsVal.undef)]
      "custom" JsVal.undef (by decide) rfl,
   toSnakeCase_spec.2.1 [("searchId", JsVal.str "abc"), ("custom", JsVal.undef)]⟩

end Clado
